import Mathlib

/-!
Shallow embedding of the CRUD + search repository layer of the
MicroHack-GitHub pet-store services (pet-service, accessory-service,
activity-service), translated from the Python sources under
`src/backend` and `src/solutions/challenge-07`.

Conventions of the embedding:
* Timestamps are abstract clock readings of type `Nat`; every call to
  `datetime.utcnow()` in the source corresponds to an explicit `Nat`
  parameter (or a clock function `Nat → Nat` for loops), in source order.
  Consecutive readings of a monotone clock satisfy `t1 ≤ t2` but are not
  necessarily equal.
* The Cosmos container is an association list from the string id (which
  is also the partition key) to the typed document, together with a flag
  saying whether database and container exist and an optional injected
  store fault standing for a transient store-reported error.
* Python exceptions become `Except` values.  The Azure SDK exception
  classes `CosmosResourceNotFoundError` and `CosmosResourceExistsError`
  are subclasses of `CosmosHttpResponseError`; the constructors of
  `CosmosErr` record the most specific class, and the translation of an
  `except CosmosHttpResponseError` branch therefore also matches the two
  specific constructors whenever no more specific branch precedes it.
* `str(uuid.uuid4())` is modelled by formatting an arbitrary 128-bit
  random value as the usual 8-4-4-4-12 hyphenated hex string.
-/

/-- Hexadecimal digit character for a value below 16, lower case as
produced by the Python uuid formatting. -/
def hexChar (n : Nat) : Char :=
  if n < 10 then Char.ofNat (48 + n) else Char.ofNat (87 + n)

/-- Fixed-width big-endian hexadecimal digit list of a natural number. -/
def hexDigits : Nat → Nat → List Char
  | 0, _ => []
  | w + 1, n => hexDigits w (n / 16) ++ [hexChar (n % 16)]

/-- Model of `str(uuid.uuid4())`: the random 128-bit value `r` rendered
as the hyphenated 8-4-4-4-12 hexadecimal form. -/
def uuidString (r : Nat) : String :=
  let h := hexDigits 32 r
  String.mk (h.take 8 ++ '-' :: ((h.drop 8).take 4) ++ '-' ::
    ((h.drop 12).take 4) ++ '-' :: ((h.drop 16).take 4) ++ '-' :: h.drop 20)

/-- Case-sensitive check that the pattern list heads the text list. -/
def leadMatch : List Char → List Char → Bool
  | [], _ => true
  | _ :: _, [] => false
  | a :: as, b :: bs => a == b && leadMatch as bs

/-- Case-sensitive substring containment on character lists. -/
def occursIn (pat : List Char) : List Char → Bool
  | [] => leadMatch pat []
  | b :: bs => leadMatch pat (b :: bs) || occursIn pat bs

/-- Substring containment on strings; model of both the Cosmos SQL
`CONTAINS` builtin (case-sensitive, as noted in the source comments) and
of the Python `in` operator on strings. -/
def strContains (s pat : String) : Bool :=
  occursIn pat.toList s.toList

/-- Model of the Azure Cosmos SDK exception hierarchy.  The first two
constructors stand for the subclasses `CosmosResourceNotFoundError`
(HTTP 404) and `CosmosResourceExistsError` (HTTP 409) of
`CosmosHttpResponseError`; the last stands for any other
`CosmosHttpResponseError` with its status code. -/
inductive CosmosErr where
  | resourceNotFound (msg : String)
  | resourceExists (msg : String)
  | httpResponse (status : Nat) (msg : String)
deriving DecidableEq, Repr

/-- Model of `e.status_code`. -/
def CosmosErr.status : CosmosErr → Nat
  | .resourceNotFound _ => 404
  | .resourceExists _ => 409
  | .httpResponse s _ => s

/-- Model of `str(e)`. -/
def CosmosErr.message : CosmosErr → String
  | .resourceNotFound m => m
  | .resourceExists m => m
  | .httpResponse _ m => m

/-- Character-wise lowercasing, the model of `str.lower()` restricted to
the ASCII alphabet that the compared literals use. -/
def lowerChars (cs : List Char) : List Char :=
  cs.map Char.toLower

/-- Translation of the not-found classifier shared by the services:
`error_message = str(e).lower()` followed by
`"does not exist" in error_message or "notfound" in error_message or
e.status_code in [404, 500]`. -/
def isNotFoundClass (e : CosmosErr) : Bool :=
  occursIn "does not exist".toList (lowerChars e.message.toList) ||
  occursIn "notfound".toList (lowerChars e.message.toList) ||
  e.status == 404 || e.status == 500

/-- Errors crossing the service boundary: a Python `ValueError` raised by
the service itself (validation class) or a propagated store error. -/
inductive ServiceErr where
  | validation (msg : String)
  | cosmos (e : CosmosErr)
deriving DecidableEq, Repr

/-- State of one Cosmos container as seen by one service: whether the
database and container exist, an optional injected transient store
fault, and the stored documents keyed by id (the id is also the
partition key, so key lookup and partition lookup coincide). -/
structure DbState (α : Type) where
  schemaReady : Bool
  fault : Option CosmosErr
  docs : List (String × α)
deriving DecidableEq, Repr

/-- Write a value under a key that is present in an association list,
keeping the position of the entry. -/
def assocSet (id : String) (v : α) : List (String × α) → List (String × α)
  | [] => []
  | (k, w) :: rest =>
    if k == id then (k, v) :: rest else (k, w) :: assocSet id v rest

/-- Remove the entry of a key from an association list. -/
def assocRemove (id : String) : List (String × α) → List (String × α)
  | [] => []
  | (k, w) :: rest =>
    if k == id then rest else (k, w) :: assocRemove id rest

/-- The store error produced when database or container is missing; its
message matches the not-found classifier of the services. -/
def schemaMissingErr : CosmosErr :=
  .resourceNotFound "Entity with the specified id does not exist in the system"

/-- The store error produced on a point read or delete of an absent
document. -/
def docMissingErr : CosmosErr :=
  .resourceNotFound "Entity with the specified id does not exist in the system"

/-- The store error produced on a create with an already stored id. -/
def conflictErr : CosmosErr :=
  .resourceExists "Entity with the specified id already exists in the system"

/-- Model of `container.read_item(item=id, partition_key=id)`. -/
def readItem (st : DbState α) (id : String) : Except CosmosErr α :=
  match st.fault with
  | some e => .error e
  | none =>
    if st.schemaReady then
      match st.docs.lookup id with
      | some doc => .ok doc
      | none => .error docMissingErr
    else .error schemaMissingErr

/-- Model of `container.create_item(body=doc)`; on success the response
echoes the stored body. -/
def createItem (st : DbState α) (id : String) (doc : α) :
    Except CosmosErr (α × DbState α) :=
  match st.fault with
  | some e => .error e
  | none =>
    if st.schemaReady then
      match st.docs.lookup id with
      | some _ => .error conflictErr
      | none => .ok (doc, { st with docs := (id, doc) :: st.docs })
    else .error schemaMissingErr

/-- Model of `container.replace_item(item=id, body=doc)`. -/
def replaceItem (st : DbState α) (id : String) (doc : α) :
    Except CosmosErr (α × DbState α) :=
  match st.fault with
  | some e => .error e
  | none =>
    if st.schemaReady then
      match st.docs.lookup id with
      | some _ => .ok (doc, { st with docs := assocSet id doc st.docs })
      | none => .error docMissingErr
    else .error schemaMissingErr

/-- Model of `container.delete_item(item=id, partition_key=id)`. -/
def deleteItem (st : DbState α) (id : String) :
    Except CosmosErr (DbState α) :=
  match st.fault with
  | some e => .error e
  | none =>
    if st.schemaReady then
      match st.docs.lookup id with
      | some _ => .ok { st with docs := assocRemove id st.docs }
      | none => .error docMissingErr
    else .error schemaMissingErr

/-!
Pet service data model, translated from
`src/backend/pet-service/models.py`.  Enumerated string fields stay
strings with their closed value set enforced by the validity predicate,
numeric fields are Python ints, optional fields are `Option`.
-/

/-- The creation input `PetCreate` (equals `PetBase`): all domain fields,
no identity and no timestamps. -/
structure PetCreate where
  name : String
  species : String
  ageYears : Int
  health : Int
  happiness : Int
  energy : Int
  avatarUrl : Option String
  notes : Option String
deriving DecidableEq, Repr

/-- The pydantic validation constraints of `PetBase`. -/
def PetCreate.valid (c : PetCreate) : Prop :=
  1 ≤ c.name.length ∧ c.name.length ≤ 100 ∧
  c.species ∈ ["dog", "cat", "bird", "other"] ∧
  0 ≤ c.ageYears ∧ c.ageYears ≤ 50 ∧
  0 ≤ c.health ∧ c.health ≤ 100 ∧
  0 ≤ c.happiness ∧ c.happiness ≤ 100 ∧
  0 ≤ c.energy ∧ c.energy ≤ 100 ∧
  (∀ n, c.notes = some n → n.length ≤ 1000)

instance (c : PetCreate) : Decidable c.valid := by
  unfold PetCreate.valid
  infer_instance

/-- The stored record `Pet`: the `PetBase` fields plus identity and the
two timestamps. -/
structure Pet where
  name : String
  species : String
  ageYears : Int
  health : Int
  happiness : Int
  energy : Int
  avatarUrl : Option String
  notes : Option String
  id : String
  createdAt : Nat
  updatedAt : Nat
deriving DecidableEq, Repr

/-- Model of `Pet(**pet_data.model_dump())` in `create_pet`: the absent
fields are filled by the pydantic default factories, in field order
`id := str(uuid.uuid4())` from the random value `r`, then
`createdAt := datetime.utcnow()` (reading `t1`), then
`updatedAt := datetime.utcnow()` (a second, separate reading `t2`). -/
def Pet.ofCreate (c : PetCreate) (r : Nat) (t1 t2 : Nat) : Pet :=
  { name := c.name, species := c.species, ageYears := c.ageYears,
    health := c.health, happiness := c.happiness, energy := c.energy,
    avatarUrl := c.avatarUrl, notes := c.notes,
    id := uuidString r, createdAt := t1, updatedAt := t2 }

/-- The partial-update input `PetUpdate`: each field is tri-state in the
source (absent, or supplied with a value); `model_dump(exclude_unset=True)`
keeps exactly the supplied fields.  A supplied field carries its new
value; for the two optional fields the supplied value may itself be the
explicit null.  (Explicitly supplying null for a required field makes
the rebuilt record fail validation and the resulting exception
propagate; that degenerate input is outside this embedding.) -/
structure PetUpdate where
  name : Option String := none
  species : Option String := none
  ageYears : Option Int := none
  health : Option Int := none
  happiness : Option Int := none
  energy : Option Int := none
  avatarUrl : Option (Option String) := none
  notes : Option (Option String) := none
deriving DecidableEq, Repr

/-- Model of `not update_data.model_dump(exclude_unset=True)`: the
change set is empty iff no field was supplied. -/
def PetUpdate.isEmpty (u : PetUpdate) : Bool :=
  u.name.isNone && u.species.isNone && u.ageYears.isNone &&
  u.health.isNone && u.happiness.isNone && u.energy.isNone &&
  u.avatarUrl.isNone && u.notes.isNone

/-- Model of `pet_dict.update(update_dict)`: overwrite exactly the
supplied fields of the stored record.  `id`, `createdAt` and `updatedAt`
are not fields of `PetUpdate` and hence never touched here. -/
def PetUpdate.applyTo (u : PetUpdate) (p : Pet) : Pet :=
  { p with
    name := u.name.getD p.name,
    species := u.species.getD p.species,
    ageYears := u.ageYears.getD p.ageYears,
    health := u.health.getD p.health,
    happiness := u.happiness.getD p.happiness,
    energy := u.energy.getD p.energy,
    avatarUrl := u.avatarUrl.getD p.avatarUrl,
    notes := u.notes.getD p.notes }

/-- The search filter object `PetSearchFilters` with its pydantic
defaults (`limit = 100`, `offset = 0`); `status` is declared but unused
by the query builder. -/
structure PetSearchFilters where
  search : Option String := none
  species : Option String := none
  status : Option String := none
  limit : Nat := 100
  offset : Nat := 0
deriving DecidableEq, Repr

/-- Python truthiness of an optional string, as tested by
`if filters.search:` — absent and empty both count as false. -/
def optStrTruthy : Option String → Bool
  | none => false
  | some s => !s.isEmpty

/-!
Pet service CRUD point operations, translated from
`src/backend/pet-service/database.py`.
-/

/-- Translation of `CosmosDBService.create_pet` (database.py lines
301-339).  Builds the full record from the input via the default
factories (random value `r`, clock readings `t1` then `t2`), inserts it,
and rebuilds the record from the echoed response.  The exception ladder
turns a `CosmosResourceExistsError` into the `ValueError` message of the
source and re-raises every other store error unchanged. -/
def create_pet (st : DbState Pet) (pet_data : PetCreate) (r t1 t2 : Nat) :
    Except ServiceErr (Pet × DbState Pet) :=
  let pet := Pet.ofCreate pet_data r t1 t2
  match createItem st pet.id pet with
  | .ok (response, st') => .ok (response, st')
  | .error (.resourceExists _) =>
      .error (.validation ("Pet with ID " ++ pet.id ++ " already exists"))
  | .error e => .error (.cosmos e)

/-- Translation of `CosmosDBService.get_pet` (database.py lines
341-366): point read by id; `CosmosResourceNotFoundError` becomes the
absent result `none`, any other store error re-raises. -/
def get_pet (st : DbState Pet) (pet_id : String) :
    Except ServiceErr (Option Pet) :=
  match readItem st pet_id with
  | .ok pet => .ok (some pet)
  | .error (.resourceNotFound _) => .ok none
  | .error e => .error (.cosmos e)

/-- Translation of `CosmosDBService.update_pet` (database.py lines
368-411).  Reads the existing record (absent gives `none`); an empty
change set returns the existing record with no store write; otherwise
the supplied fields are merged into the stored representation,
`updatedAt` is set to a fresh clock reading `tNow`, and the document is
replaced in full.  Store errors other than not-found re-raise. -/
def update_pet (st : DbState Pet) (pet_id : String) (update_data : PetUpdate)
    (tNow : Nat) : Except ServiceErr (Option Pet × DbState Pet) :=
  match get_pet st pet_id with
  | .error e => .error e
  | .ok none => .ok (none, st)
  | .ok (some existing_pet) =>
    if update_data.isEmpty then
      .ok (some existing_pet, st)
    else
      let pet' := { update_data.applyTo existing_pet with updatedAt := tNow }
      match replaceItem st pet_id pet' with
      | .ok (response, st') => .ok (some response, st')
      | .error (.resourceNotFound _) => .ok (none, st)
      | .error e => .error (.cosmos e)

/-- Translation of `CosmosDBService.delete_pet` (database.py lines
413-438): delete by id; not-found yields `false`, success `true`, any
other store error re-raises. -/
def delete_pet (st : DbState Pet) (pet_id : String) :
    Except ServiceErr (Bool × DbState Pet) :=
  match deleteItem st pet_id with
  | .ok st' => .ok (true, st')
  | .error (.resourceNotFound _) => .ok (false, st)
  | .error e => .error (.cosmos e)

/-!
Pet search query builder and execution, translated from
`CosmosDBService.search_pets` (database.py lines 440-517) together with
the provisioning flow `_create_database_and_seed` (lines 170-200) and
`_database_seed` (lines 202-257).
-/

/-- Structured mirror of one entry of the `conditions` list built by
`search_pets`: the free-text clause
`(CONTAINS(c.name, @search) OR CONTAINS(c.notes, @search))` with the
bound value of `@search`, or the exact-match clause
`c.species = @species` with the bound value of `@species`. -/
inductive PetCond where
  | searchText (term : String)
  | speciesEq (sp : String)
deriving DecidableEq, Repr

/-- The SQL text of one condition, exactly as appended to `conditions`
in the source (the bound value does not appear in the text). -/
def PetCond.text : PetCond → String
  | .searchText _ => "(CONTAINS(c.name, @search) OR CONTAINS(c.notes, @search))"
  | .speciesEq _ => "c.species = @species"

/-- The bound parameter contributed by one condition, exactly as
appended to `parameters` in the source. -/
def PetCond.param : PetCond → String × String
  | .searchText t => ("@search", t)
  | .speciesEq sp => ("@species", sp)

/-- Store-side evaluation of one condition against a stored document,
following Cosmos SQL semantics: `CONTAINS` is case-sensitive substring
containment, and `CONTAINS` applied to the SQL null stored for an absent
`notes` field is undefined, hence falsy inside the `OR`. -/
def PetCond.eval (c : PetCond) (p : Pet) : Bool :=
  match c with
  | .searchText t =>
    strContains p.name t ||
      (match p.notes with
       | some ns => strContains ns t
       | none => false)
  | .speciesEq sp => p.species == sp

/-- Conjunctive (`AND`) evaluation of the whole condition list. -/
def evalPetConds (cs : List PetCond) (p : Pet) : Bool :=
  cs.all (fun c => c.eval p)

/-- Shared shape of `if filters.field: conditions.append(clause(value))`
for an optional string filter field: one clause when the field is truthy
(present and non-empty), no clause otherwise. -/
def optTextClause (o : Option String) (mk : String → β) : List β :=
  match o with
  | some s => if s.isEmpty then [] else [mk s]
  | none => []

/-- The `conditions` list of `search_pets`: one clause per truthy
filter, in source order, nothing for an absent (or falsy) filter. -/
def petConditions (f : PetSearchFilters) : List PetCond :=
  optTextClause f.search PetCond.searchText ++
  optTextClause f.species PetCond.speciesEq

/-- The assembled query text of `search_pets`:
`" ".join(query_parts)` for `["SELECT * FROM c"]`, the optional
`WHERE` part joining the clauses with `" AND "`, the fixed ordering
part, and the f-string `f"OFFSET {filters.offset} LIMIT {filters.limit}"`
which interpolates offset and limit directly into the text. -/
def petQueryText (f : PetSearchFilters) : String :=
  let conds := petConditions f
  "SELECT * FROM c" ++
  (if conds.isEmpty then ""
   else " WHERE " ++ String.intercalate " AND " (conds.map PetCond.text)) ++
  " ORDER BY c.createdAt DESC" ++
  " OFFSET " ++ toString f.offset ++ " LIMIT " ++ toString f.limit

/-- The bound `parameters` list of `search_pets`. -/
def petQueryParams (f : PetSearchFilters) : List (String × String) :=
  (petConditions f).map PetCond.param

/-- Store-side execution of the built query (the external document
store): filter by the conjunction of the conditions, order by
`c.createdAt` descending, then apply `OFFSET`/`LIMIT` server-side. -/
def runPetQuery (st : DbState Pet) (f : PetSearchFilters) :
    Except CosmosErr (List Pet) :=
  match st.fault with
  | some e => .error e
  | none =>
    if st.schemaReady then
      .ok ((((st.docs.map Prod.snd).filter
              (evalPetConds (petConditions f))).mergeSort
              (fun a b => decide (b.createdAt ≤ a.createdAt))).drop
              f.offset |>.take f.limit)
    else .error schemaMissingErr

/-- First canonical sample record of `_database_seed`; it reads the
clock twice (for `createdAt` and `updatedAt`). -/
def samplePet1 (clk : Nat → Nat) : Pet :=
  { name := "Luna", species := "dog", ageYears := 3, health := 82,
    happiness := 91, energy := 76, avatarUrl := some "",
    notes := some "Loves fetch", id := "p1",
    createdAt := clk 0, updatedAt := clk 1 }

/-- Second canonical sample record of `_database_seed`. -/
def samplePet2 (clk : Nat → Nat) : Pet :=
  { name := "Milo", species := "cat", ageYears := 2, health := 88,
    happiness := 73, energy := 65, avatarUrl := some "",
    notes := some "Window watcher", id := "p2",
    createdAt := clk 2, updatedAt := clk 3 }

/-- Third canonical sample record of `_database_seed`. -/
def samplePet3 (clk : Nat → Nat) : Pet :=
  { name := "Pico", species := "bird", ageYears := 1, health := 75,
    happiness := 80, energy := 90, avatarUrl := some "",
    notes := some "Chirpy", id := "p3",
    createdAt := clk 4, updatedAt := clk 5 }

/-- The three canonical sample records of `_database_seed`, with
explicit ids `p1`, `p2`, `p3`; the six clock readings are taken in
document order from the clock function `clk`. -/
def samplePets (clk : Nat → Nat) : List (String × Pet) :=
  [("p1", samplePet1 clk), ("p2", samplePet2 clk), ("p3", samplePet3 clk)]

/-- One iteration of the seeding loop of `_database_seed`: try to create
the sample record; `except CosmosResourceExistsError: continue` swallows
exactly the conflict on a pre-existing identity, every other store error
propagates out of the loop. -/
def seedOne (st : DbState Pet) (entry : String × Pet) :
    Except CosmosErr (DbState Pet) :=
  match createItem st entry.1 entry.2 with
  | .ok (_, st') => .ok st'
  | .error (.resourceExists _) => .ok st
  | .error e => .error e

/-- Translation of `CosmosDBService._database_seed` (database.py lines
202-257): insert the three sample records in order, skipping the ones
whose identity already exists. -/
def database_seed (st : DbState Pet) (clk : Nat → Nat) :
    Except CosmosErr (DbState Pet) :=
  (samplePets clk).foldlM seedOne st

/-- Translation of `CosmosDBService._create_database_and_seed`
(database.py lines 170-200): create database and container if absent
(making the schema ready), then seed; any store error raised inside
propagates. -/
def create_database_and_seed (st : DbState Pet) (clk : Nat → Nat) :
    Except CosmosErr (DbState Pet) :=
  match st.fault with
  | some e => .error e
  | none => database_seed { st with schemaReady := true } clk

/-- Translation of `CosmosDBService.search_pets` (database.py lines
440-517).  The query of the built filter runs against the store; rows
deserialize into records (in this typed store model every row parses).
A store error classified as not-found triggers
`_create_database_and_seed` followed by a recursive call
`return await self.search_pets(filters)` — the source recursion is
unbounded, so the embedding carries explicit fuel counting the permitted
retries and gives back the triggering error when the fuel runs out; any
error outside the not-found class, and any error raised by the
provisioning itself, propagates unchanged. -/
def search_pets (fuel : Nat) (clk : Nat → Nat) (st : DbState Pet)
    (filters : PetSearchFilters) :
    Except CosmosErr (List Pet × DbState Pet) :=
  match runPetQuery st filters with
  | .ok pets => .ok (pets, st)
  | .error e =>
    if isNotFoundClass e then
      match fuel with
      | 0 => .error e
      | fuel' + 1 =>
        match create_database_and_seed st clk with
        | .error e2 => .error e2
        | .ok st' => search_pets fuel' clk st' filters
    else .error e

/-- Translation of `CosmosDBService.get_all_pets` (database.py lines
519-531): build a filter object carrying only the limit and the offset
and delegate to `search_pets`. -/
def get_all_pets (fuel : Nat) (clk : Nat → Nat) (st : DbState Pet)
    (limit : Nat := 100) (offset : Nat := 0) :
    Except CosmosErr (List Pet × DbState Pet) :=
  let filters : PetSearchFilters := { limit := limit, offset := offset }
  search_pets fuel clk st filters

/-!
Accessory service data model, translated from
`src/backend/accessory-service/models.py` (structurally identical to the
challenge-07 copy).  The float `price` field is carried opaquely as an
exact rational: no modelled operation computes with it.
-/

/-- The stored record `Accessory`. -/
structure Accessory where
  name : String
  type : String
  price : Rat
  stock : Int
  size : String
  imageUrl : Option String
  description : Option String
  id : String
  createdAt : Nat
  updatedAt : Nat
deriving DecidableEq, Repr

/-- The partial-update input `AccessoryUpdate`, tri-state per field as
for `PetUpdate`. -/
structure AccessoryUpdate where
  name : Option String := none
  type : Option String := none
  price : Option Rat := none
  stock : Option Int := none
  size : Option String := none
  imageUrl : Option (Option String) := none
  description : Option (Option String) := none
deriving DecidableEq, Repr

/-- Model of `not update_data.model_dump(exclude_unset=True)` for
accessories. -/
def AccessoryUpdate.isEmpty (u : AccessoryUpdate) : Bool :=
  u.name.isNone && u.type.isNone && u.price.isNone && u.stock.isNone &&
  u.size.isNone && u.imageUrl.isNone && u.description.isNone

/-- Model of `existing_dict.update(update_data)` for accessories. -/
def AccessoryUpdate.applyTo (u : AccessoryUpdate) (a : Accessory) : Accessory :=
  { a with
    name := u.name.getD a.name,
    type := u.type.getD a.type,
    price := u.price.getD a.price,
    stock := u.stock.getD a.stock,
    size := u.size.getD a.size,
    imageUrl := u.imageUrl.getD a.imageUrl,
    description := u.description.getD a.description }

/-- The search filter object `AccessorySearchFilters` with its pydantic
defaults. -/
structure AccessorySearchFilters where
  search : Option String := none
  type : Option String := none
  lowStockOnly : Option Bool := none
  limit : Nat := 100
  offset : Nat := 0
deriving DecidableEq, Repr

/-- Python truthiness of the optional boolean `lowStockOnly`, as tested
by `if filters.lowStockOnly:` — absent and `False` both count false. -/
def optBoolTruthy : Option Bool → Bool
  | none => false
  | some b => b

/-!
Backend accessory service operations, translated from
`src/backend/accessory-service/database.py`.
-/

/-- Structured mirror of one entry of the `conditions` list built by
`search_accessories`: the free-text clause over `c.name`/`c.description`,
the exact-match clause `c.type = @type`, or the parameterless low-stock
clause `c.stock < 10`. -/
inductive AccCond where
  | searchText (term : String)
  | typeEq (t : String)
  | lowStock
deriving DecidableEq, Repr

/-- The SQL text of one accessory condition, exactly as in the source. -/
def AccCond.text : AccCond → String
  | .searchText _ =>
    "(CONTAINS(c.name, @search) OR CONTAINS(c.description, @search))"
  | .typeEq _ => "c.type = @type"
  | .lowStock => "c.stock < 10"

/-- The bound parameters contributed by one accessory condition; the
low-stock clause binds none. -/
def AccCond.params : AccCond → List (String × String)
  | .searchText t => [("@search", t)]
  | .typeEq t => [("@type", t)]
  | .lowStock => []

/-- Store-side evaluation of one accessory condition, with the same
Cosmos SQL semantics as for pets. -/
def AccCond.eval (c : AccCond) (a : Accessory) : Bool :=
  match c with
  | .searchText t =>
    strContains a.name t ||
      (match a.description with
       | some d => strContains d t
       | none => false)
  | .typeEq t => a.type == t
  | .lowStock => decide (a.stock < 10)

/-- Conjunctive (`AND`) evaluation of the accessory condition list. -/
def evalAccConds (cs : List AccCond) (a : Accessory) : Bool :=
  cs.all (fun c => c.eval a)

/-- The `conditions` list of `search_accessories` (database.py lines
317-344): one clause per truthy filter, in source order. -/
def accConditions (f : AccessorySearchFilters) : List AccCond :=
  optTextClause f.search AccCond.searchText ++
  optTextClause f.type AccCond.typeEq ++
  (if optBoolTruthy f.lowStockOnly then [AccCond.lowStock] else [])

/-- The assembled query text of `search_accessories`, with offset and
limit interpolated by the f-string exactly as in the source. -/
def accQueryText (f : AccessorySearchFilters) : String :=
  let conds := accConditions f
  "SELECT * FROM c" ++
  (if conds.isEmpty then ""
   else " WHERE " ++ String.intercalate " AND " (conds.map AccCond.text)) ++
  " ORDER BY c.createdAt DESC" ++
  " OFFSET " ++ toString f.offset ++ " LIMIT " ++ toString f.limit

/-- The bound `parameters` list of `search_accessories`. -/
def accQueryParams (f : AccessorySearchFilters) : List (String × String) :=
  (accConditions f).flatMap AccCond.params

/-- Store-side execution of the built accessory query. -/
def runAccQuery (st : DbState Accessory) (f : AccessorySearchFilters) :
    Except CosmosErr (List Accessory) :=
  match st.fault with
  | some e => .error e
  | none =>
    if st.schemaReady then
      .ok ((((st.docs.map Prod.snd).filter
              (evalAccConds (accConditions f))).mergeSort
              (fun a b => decide (b.createdAt ≤ a.createdAt))).drop
              f.offset |>.take f.limit)
    else .error schemaMissingErr

/-- Translation of `AccessoryCosmosDBService.search_accessories`
(backend accessory database.py lines 304-372).  Unlike the pet search,
the exception ladder of this generation has no not-found branch: the
handler of lines 367-372 logs and re-raises every store error, so every
error of the query — the schema-missing not-found included — propagates
to the caller unchanged and no provisioning or retry ever happens. -/
def search_accessories (st : DbState Accessory)
    (filters : AccessorySearchFilters) : Except CosmosErr (List Accessory) :=
  match runAccQuery st filters with
  | .ok items => .ok items
  | .error e => .error e

/-- Translation of `AccessoryCosmosDBService.get_all_accessories`
(backend accessory database.py lines 374-386): build a filter object
carrying only the limit and the offset and delegate to
`search_accessories`. -/
def get_all_accessories (st : DbState Accessory) (limit : Nat := 100)
    (offset : Nat := 0) : Except CosmosErr (List Accessory) :=
  let filters : AccessorySearchFilters := { limit := limit, offset := offset }
  search_accessories st filters

/-- Translation of `AccessoryCosmosService.update_accessory` of the
challenge-07 generation (`src/solutions/challenge-07/accessory-service/
database.py` lines 295-333).  This generation computes the supplied
fields but, unlike the pet service, never tests whether the change set
is empty: it always merges, always sets `updatedAt` to a fresh clock
reading and always performs the full-document replace. -/
def ch07_update_accessory (st : DbState Accessory) (accessory_id : String)
    (update_data : AccessoryUpdate) (tNow : Nat) :
    Except ServiceErr (Option Accessory × DbState Accessory) :=
  match readItem st accessory_id with
  | .error (.resourceNotFound _) => .ok (none, st)
  | .error e => .error (.cosmos e)
  | .ok existing =>
    let acc' := { update_data.applyTo existing with updatedAt := tNow }
    match replaceItem st accessory_id acc' with
    | .ok (response, st') => .ok (some response, st')
    | .error (.resourceNotFound _) => .ok (none, st)
    | .error e => .error (.cosmos e)

/-!
Activity service creation, translated from
`src/backend/activity-service/models.py` and `database.py`.
-/

/-- The creation input `ActivityCreate`: the event fields, no identity
and no audit timestamps.  The event timestamp is a clock value like the
audit timestamps. -/
structure ActivityCreate where
  petId : String
  type : String
  timestamp : Nat
  notes : Option String
deriving DecidableEq, Repr

/-- The stored record `Activity`. -/
structure Activity where
  petId : String
  type : String
  timestamp : Nat
  notes : Option String
  id : String
  createdAt : Nat
  updatedAt : Nat
deriving DecidableEq, Repr

/-- Translation of `ActivityCosmosService.create_activity`
(activity database.py lines 207-245).  The record is built with
`id := str(uuid.uuid4())` (default factory over the random value `r`)
and the two explicit readings `createdAt := datetime.utcnow()` and
`updatedAt := datetime.utcnow()`.  The exception ladder of this service
has no `CosmosResourceExistsError` branch: a duplicate-identity conflict
is an instance of `CosmosHttpResponseError` and is re-raised unchanged
by the `except CosmosHttpResponseError` branch, never converted into a
`ValueError`. -/
def create_activity (st : DbState Activity) (activity_data : ActivityCreate)
    (r t1 t2 : Nat) : Except ServiceErr (Activity × DbState Activity) :=
  let activity : Activity :=
    { petId := activity_data.petId, type := activity_data.type,
      timestamp := activity_data.timestamp, notes := activity_data.notes,
      id := uuidString r, createdAt := t1, updatedAt := t2 }
  match createItem st activity.id activity with
  | .ok (response, st') => .ok (response, st')
  | .error e => .error (.cosmos e)

/-!
Definitions written from the wording of the specification, used to state
the refinement-style claims about the query builder; everything above
was translated from the source.
-/

/-- Modelled from the spec wording of the free-text filter: case
sensitive substring containment against the two designated text fields,
combined with OR (a null optional text field contains nothing). -/
def textFieldsMatch (term : String) (primary : String)
    (secondary : Option String) : Bool :=
  strContains primary term ||
    (match secondary with
     | some s => strContains s term
     | none => false)

/-- Modelled from the claim: the conjunction of all supplied pet
filters, where a filter counts as supplied when its value is truthy (the
reading under which the source tests the fields). -/
def petFilterMatches (f : PetSearchFilters) (p : Pet) : Bool :=
  (!optStrTruthy f.search ||
    textFieldsMatch (f.search.getD "") p.name p.notes) &&
  (!optStrTruthy f.species || p.species == f.species.getD "")

/-- Modelled from the claim: the conjunction of all supplied accessory
filters. -/
def accFilterMatches (f : AccessorySearchFilters) (a : Accessory) : Bool :=
  (!optStrTruthy f.search ||
    textFieldsMatch (f.search.getD "") a.name a.description) &&
  (!optStrTruthy f.type || a.type == f.type.getD "") &&
  (!optBoolTruthy f.lowStockOnly || decide (a.stock < 10))

/-- Number of supplied (truthy) pet filters. -/
def petPresentCount (f : PetSearchFilters) : Nat :=
  (if optStrTruthy f.search then 1 else 0) +
  (if optStrTruthy f.species then 1 else 0)

/-- Number of supplied (truthy) accessory filters. -/
def accPresentCount (f : AccessorySearchFilters) : Nat :=
  (if optStrTruthy f.search then 1 else 0) +
  (if optStrTruthy f.type then 1 else 0) +
  (if optBoolTruthy f.lowStockOnly then 1 else 0)

/-!
Concrete inputs used by the counterexamples and witnesses below.
-/

/-- A valid creation input used by concrete instances. -/
def rexInput : PetCreate :=
  { name := "Rex", species := "dog", ageYears := 1, health := 50,
    happiness := 50, energy := 50, avatarUrl := none, notes := none }

/-- An empty, schema-ready pet store. -/
def emptyPetStore : DbState Pet :=
  { schemaReady := true, fault := none, docs := [] }

/-- A stored pet whose last write happened at clock value 7. -/
def lunaAtSeven : Pet :=
  { name := "Luna", species := "dog", ageYears := 3, health := 82,
    happiness := 91, energy := 76, avatarUrl := none,
    notes := some "Loves fetch", id := "p9", createdAt := 7, updatedAt := 7 }

/-- A pet store holding only `lunaAtSeven`. -/
def oneLunaStore : DbState Pet :=
  { schemaReady := true, fault := none, docs := [("p9", lunaAtSeven)] }

/-- A stored accessory whose last write happened at clock value 0. -/
def chewToy : Accessory :=
  { name := "Chew Toy", type := "toy", price := 9, stock := 12, size := "M",
    imageUrl := some "", description := some "Durable rope", id := "x1",
    createdAt := 0, updatedAt := 0 }

/-- An accessory store holding only `chewToy`. -/
def oneChewToyStore : DbState Accessory :=
  { schemaReady := true, fault := none, docs := [("x1", chewToy)] }

/-- An accessory store whose database or container does not exist. -/
def noSchemaAccStore : DbState Accessory :=
  { schemaReady := false, fault := none, docs := [] }

/-- An activity creation input used by concrete instances. -/
def walkInput : ActivityCreate :=
  { petId := "p1", type := "walk", timestamp := 3, notes := some "Park loop" }

/-- An activity store already holding a record under the identity that
`uuidString 0` generates. -/
def clashActivityStore : DbState Activity :=
  { schemaReady := true, fault := none,
    docs := [(uuidString 0,
      { petId := "p2", type := "feed", timestamp := 1, notes := none,
        id := uuidString 0, createdAt := 0, updatedAt := 0 })] }

/-!
Helper lemmas.
-/

theorem hexDigits_length (w n : Nat) : (hexDigits w n).length = w := by
  induction w generalizing n with
  | zero => rfl
  | succ w ih => simp [hexDigits, ih]

theorem uuidString_length (r : Nat) : (uuidString r).length = 36 := by
  have h := hexDigits_length 32 r
  simp [uuidString, String.length, h]

theorem uuidString_ne_empty (r : Nat) : uuidString r ≠ "" := by
  intro h
  have h36 := uuidString_length r
  rw [h] at h36
  simp [String.length] at h36

/-!
C10.
-/

/-- C10: for every limit and offset, the list-all operation of each
service returns exactly the result of the search operation applied to a
filter object whose only set fields are that limit and that offset; the
source builds precisely this filter object and delegates, so the two
sides agree definitionally in every store state (and, for pets, for
every retry fuel and clock). -/
theorem c10_get_all_refines_search :
    (∀ (fuel : Nat) (clk : Nat → Nat) (st : DbState Pet)
        (limit offset : Nat),
      get_all_pets fuel clk st limit offset =
        search_pets fuel clk st
          { search := none, species := none, status := none,
            limit := limit, offset := offset }) ∧
    (∀ (st : DbState Accessory) (limit offset : Nat),
      get_all_accessories st limit offset =
        search_accessories st
          { search := none, type := none, lowStockOnly := none,
            limit := limit, offset := offset }) :=
  ⟨fun _ _ _ _ _ => rfl, fun _ _ _ => rfl⟩

/-!
C4.
-/

/-- C4: for every identity not present in the (reachable, healthy)
store, the point read returns the absent result, the partial update
returns the absent result, and the delete returns false; all three
return normally instead of raising, because each translates the
store-level not-found into its absent value. -/
theorem c4_absent_entity_ops (st : DbState Pet) (id : String)
    (u : PetUpdate) (t : Nat) (hs : st.schemaReady = true)
    (hf : st.fault = none) (habs : st.docs.lookup id = none) :
    get_pet st id = .ok none ∧
    update_pet st id u t = .ok (none, st) ∧
    delete_pet st id = .ok (false, st) := by
  refine ⟨?_, ?_, ?_⟩
  · simp [get_pet, readItem, hs, hf, habs, docMissingErr]
  · simp [update_pet, get_pet, readItem, hs, hf, habs, docMissingErr]
  · simp [delete_pet, deleteItem, hs, hf, habs, docMissingErr]

/-- Witness for C4 at a concrete store and identity. -/
theorem c4_witness :
    get_pet oneLunaStore "zz" = .ok none ∧
    update_pet oneLunaStore "zz" { name := some "Max" } 9 =
      .ok (none, oneLunaStore) ∧
    delete_pet oneLunaStore "zz" = .ok (false, oneLunaStore) :=
  c4_absent_entity_ops oneLunaStore "zz" { name := some "Max" } 9
    (by decide) (by decide) (by decide)

/-!
C1.
-/

/-- C1 counterexample: the claim asserts `createdAt` equal to
`updatedAt` for every valid creation, but the `Pet` model fills the two
timestamps through two separate default-factory calls of
`datetime.utcnow()` (models.py lines 46-47), so a clock that advances
between the two reads — here reading 0 then 1 — yields a created record
with `createdAt` different from `updatedAt`. -/
theorem c1_counterexample :
    rexInput.valid ∧
    create_pet emptyPetStore rexInput 0 0 1 =
      .ok (Pet.ofCreate rexInput 0 0 1,
        { schemaReady := true, fault := none,
          docs := [(uuidString 0, Pet.ofCreate rexInput 0 0 1)] }) ∧
    (Pet.ofCreate rexInput 0 0 1).createdAt ≠
      (Pet.ofCreate rexInput 0 0 1).updatedAt := by
  refine ⟨by decide, ?_, by decide⟩
  rfl

/-- C1 (amended): for every valid creation input, on a healthy store
with a fresh generated identity, create returns the stored record whose
identity is the generated uuid string (never empty), whose fields all
round-trip unchanged from the input, and whose `createdAt` and
`updatedAt` are the two consecutive clock readings of the default
factories — hence `createdAt ≤ updatedAt` for a monotone clock, with
equality exactly when the clock does not advance between the two reads
(the unamended `createdAt = updatedAt` holds only in that case). -/
theorem c1_create_roundtrip (st : DbState Pet) (c : PetCreate)
    (r t1 t2 : Nat) (hv : c.valid) (hs : st.schemaReady = true)
    (hf : st.fault = none)
    (hfresh : st.docs.lookup (uuidString r) = none) (ht : t1 ≤ t2) :
    ∃ p st', create_pet st c r t1 t2 = .ok (p, st') ∧
      p.id = uuidString r ∧ p.id ≠ "" ∧
      p.name = c.name ∧ p.species = c.species ∧
      p.ageYears = c.ageYears ∧ p.health = c.health ∧
      p.happiness = c.happiness ∧ p.energy = c.energy ∧
      p.avatarUrl = c.avatarUrl ∧ p.notes = c.notes ∧
      p.createdAt = t1 ∧ p.updatedAt = t2 ∧
      p.createdAt ≤ p.updatedAt ∧
      st' = { st with docs := (p.id, p) :: st.docs } := by
  refine ⟨Pet.ofCreate c r t1 t2, _, ?_, rfl, uuidString_ne_empty r,
    rfl, rfl, rfl, rfl, rfl, rfl, rfl, rfl, rfl, rfl, ht, rfl⟩
  simp [create_pet, createItem, hs, hf, Pet.ofCreate, hfresh]

/-- Witness for C1 (amended) at a concrete input. -/
theorem c1_witness :
    ∃ p st', create_pet emptyPetStore rexInput 3 4 4 = .ok (p, st') ∧
      p.id = uuidString 3 ∧ p.id ≠ "" ∧
      p.name = rexInput.name ∧ p.species = rexInput.species ∧
      p.ageYears = rexInput.ageYears ∧ p.health = rexInput.health ∧
      p.happiness = rexInput.happiness ∧ p.energy = rexInput.energy ∧
      p.avatarUrl = rexInput.avatarUrl ∧ p.notes = rexInput.notes ∧
      p.createdAt = 4 ∧ p.updatedAt = 4 ∧
      p.createdAt ≤ p.updatedAt ∧
      st' = { emptyPetStore with docs := (p.id, p) :: emptyPetStore.docs } :=
  c1_create_roundtrip emptyPetStore rexInput 3 4 4 (by decide) (by decide)
    (by decide) (by decide) (by decide)

/-!
C5.
-/

/-- C5 counterexample: the claim asserts that every successful non-empty
partial update strictly advances `updatedAt`, but `update_pet` merely
sets `updatedAt` to the current `datetime.utcnow()` reading (database.py
line 395); an update performed while the clock still shows the stored
value — here a record written at clock 7 and updated at clock 7 — leaves
`updatedAt` equal to its previous value instead of strictly greater. -/
theorem c5_counterexample :
    update_pet oneLunaStore "p9" { name := some "Max" } 7 =
      .ok (some { lunaAtSeven with name := "Max", updatedAt := 7 },
        { oneLunaStore with
          docs := [("p9",
            { lunaAtSeven with
              name := "Max"
              updatedAt := 7 })] }) ∧
    lunaAtSeven.updatedAt = 7 ∧
    ¬ lunaAtSeven.updatedAt <
        ({ lunaAtSeven with name := "Max", updatedAt := 7 } : Pet).updatedAt := by
  refine ⟨?_, rfl, by decide⟩
  rfl

/-- C5 (amended): for every stored record and every non-empty change
set, the successful partial update leaves the identity and `createdAt`
unchanged, overwrites exactly the supplied fields with the supplied
values while every unsupplied field keeps its stored value, and sets
`updatedAt` to the update-time clock reading — which strictly advances
`updatedAt` whenever that reading is strictly later than the stored
`updatedAt` (the unamended strict advance can fail when the update
happens within the clock resolution of the previous write). -/
theorem c5_update_exact_fields (st : DbState Pet) (id : String)
    (u : PetUpdate) (tNow : Nat) (p : Pet) (hs : st.schemaReady = true)
    (hf : st.fault = none) (hp : st.docs.lookup id = some p)
    (hne : u.isEmpty = false) :
    ∃ p' st', update_pet st id u tNow = .ok (some p', st') ∧
      p'.id = p.id ∧ p'.createdAt = p.createdAt ∧
      p'.name = u.name.getD p.name ∧
      p'.species = u.species.getD p.species ∧
      p'.ageYears = u.ageYears.getD p.ageYears ∧
      p'.health = u.health.getD p.health ∧
      p'.happiness = u.happiness.getD p.happiness ∧
      p'.energy = u.energy.getD p.energy ∧
      p'.avatarUrl = u.avatarUrl.getD p.avatarUrl ∧
      p'.notes = u.notes.getD p.notes ∧
      p'.updatedAt = tNow ∧
      (p.updatedAt < tNow → p.updatedAt < p'.updatedAt) ∧
      st' = { st with docs := assocSet id p' st.docs } := by
  refine ⟨{ u.applyTo p with updatedAt := tNow }, _, ?_, rfl, rfl, rfl, rfl,
    rfl, rfl, rfl, rfl, rfl, rfl, rfl, fun h => h, rfl⟩
  simp [update_pet, get_pet, readItem, replaceItem, hs, hf, hp, hne,
    PetUpdate.applyTo]

/-- Witness for C5 (amended) at a concrete input with an advanced
clock. -/
theorem c5_witness :
    ∃ p' st', update_pet oneLunaStore "p9" { health := some 90 } 12 =
      .ok (some p', st') ∧
      p'.id = lunaAtSeven.id ∧ p'.createdAt = lunaAtSeven.createdAt ∧
      p'.name = Option.getD none lunaAtSeven.name ∧
      p'.species = Option.getD none lunaAtSeven.species ∧
      p'.ageYears = Option.getD none lunaAtSeven.ageYears ∧
      p'.health = Option.getD (some 90) lunaAtSeven.health ∧
      p'.happiness = Option.getD none lunaAtSeven.happiness ∧
      p'.energy = Option.getD none lunaAtSeven.energy ∧
      p'.avatarUrl = Option.getD none lunaAtSeven.avatarUrl ∧
      p'.notes = Option.getD none lunaAtSeven.notes ∧
      p'.updatedAt = 12 ∧
      (lunaAtSeven.updatedAt < 12 → lunaAtSeven.updatedAt < p'.updatedAt) ∧
      st' = { oneLunaStore with
              docs := assocSet "p9" p' oneLunaStore.docs } :=
  c5_update_exact_fields oneLunaStore "p9" { health := some 90 } 12
    lunaAtSeven (by decide) (by decide) (by decide) (by decide)

/-!
C2.
-/

/-- C2 counterexample: the claim asserts that an empty change set leaves
the record and `updatedAt` untouched and performs no store write, but
the challenge-07 accessory implementation (database.py lines 309-325 of
that generation) never tests for an empty change set: at a record last
written at clock 0, an empty update at clock 5 rewrites the document and
refreshes `updatedAt` to 5. -/
theorem c2_counterexample :
    chewToy.updatedAt = 0 ∧
    ch07_update_accessory oneChewToyStore "x1" {} 5 =
      .ok (some { chewToy with updatedAt := 5 },
        { oneChewToyStore with
          docs := [("x1", { chewToy with updatedAt := 5 })] }) ∧
    ({ chewToy with updatedAt := 5 } : Accessory).updatedAt ≠
      chewToy.updatedAt ∧
    ({ oneChewToyStore with
       docs := [("x1", { chewToy with updatedAt := 5 })] } : DbState Accessory) ≠
      oneChewToyStore := by
  refine ⟨rfl, ?_, by decide, by decide⟩
  rfl

/-- C2 (amended): the pet-service update (database.py lines 388-390)
with an empty change set returns the existing record with the store
state unchanged and `updatedAt` untouched; the challenge-07 accessory
update has no such no-op branch and instead always merges, refreshes
`updatedAt` to the update-time clock reading and replaces the stored
document, even when no field was supplied. -/
theorem c2_empty_change_set (st : DbState Pet) (id : String)
    (u : PetUpdate) (t : Nat) (p : Pet)
    (ast : DbState Accessory) (aid : String) (au : AccessoryUpdate)
    (at' : Nat) (a : Accessory)
    (hs : st.schemaReady = true) (hf : st.fault = none)
    (hp : st.docs.lookup id = some p) (he : u.isEmpty = true)
    (has : ast.schemaReady = true) (haf : ast.fault = none)
    (hap : ast.docs.lookup aid = some a) (hae : au.isEmpty = true) :
    update_pet st id u t = .ok (some p, st) ∧
    ch07_update_accessory ast aid au at' =
      .ok (some { au.applyTo a with updatedAt := at' },
        { ast with
          docs := assocSet aid { au.applyTo a with updatedAt := at' }
            ast.docs }) := by
  constructor
  · simp [update_pet, get_pet, readItem, hs, hf, hp, he]
  · simp [ch07_update_accessory, readItem, replaceItem, has, haf, hap]

/-- Witness for C2 (amended) at concrete stores and empty updates. -/
theorem c2_witness :
    (update_pet oneLunaStore "p9" {} 9 = .ok (some lunaAtSeven, oneLunaStore) ∧
     ch07_update_accessory oneChewToyStore "x1" {} 9 =
       .ok (some { AccessoryUpdate.applyTo {} chewToy with updatedAt := 9 },
         { oneChewToyStore with
           docs := assocSet "x1"
             { AccessoryUpdate.applyTo {} chewToy with updatedAt := 9 }
             oneChewToyStore.docs })) :=
  c2_empty_change_set oneLunaStore "p9" {} 9 lunaAtSeven
    oneChewToyStore "x1" {} 9 chewToy
    (by decide) (by decide) (by decide) (by decide)
    (by decide) (by decide) (by decide) (by decide)

/-!
C8.
-/

/-- C8 counterexample: the claim asserts that every create invocation
surfaces a duplicate-identity store conflict as a distinct
validation-class error, but the exception ladder of the activity-service
`create_activity` (activity database.py lines 240-245) has no
`CosmosResourceExistsError` branch: at a store already holding a record
under the generated identity, the conflict is re-raised as the plain
store error, not converted into a validation-class error. -/
theorem c8_counterexample :
    create_activity clashActivityStore walkInput 0 4 5 =
      .error (.cosmos conflictErr) := by
  rfl

/-- C8 (amended): a duplicate-identity store conflict during create is
surfaced as the distinct validation-class already-exists error by the
pet-service create (which converts `CosmosResourceExistsError` into a
`ValueError`), while the activity-service create propagates the same
conflict to its caller as the unconverted generic store error. -/
theorem c8_create_conflict :
    (∀ (st : DbState Pet) (c : PetCreate) (r t1 t2 : Nat),
      st.schemaReady = true → st.fault = none →
      (st.docs.lookup (uuidString r)).isSome →
      create_pet st c r t1 t2 =
        .error (.validation
          ("Pet with ID " ++ uuidString r ++ " already exists"))) ∧
    (∀ (st : DbState Activity) (a : ActivityCreate) (r t1 t2 : Nat),
      st.schemaReady = true → st.fault = none →
      (st.docs.lookup (uuidString r)).isSome →
      create_activity st a r t1 t2 = .error (.cosmos conflictErr)) := by
  constructor
  · intro st c r t1 t2 hs hf hdup
    rcases hb : st.docs.lookup (uuidString r) with _ | v
    · rw [hb] at hdup
      simp at hdup
    · simp [create_pet, createItem, hs, hf, Pet.ofCreate, hb, conflictErr]
  · intro st a r t1 t2 hs hf hdup
    rcases hb : st.docs.lookup (uuidString r) with _ | v
    · rw [hb] at hdup
      simp at hdup
    · simp [create_activity, createItem, hs, hf, hb]

/-- Witness for C8 (amended) at concrete conflicting stores. -/
theorem c8_witness :
    create_pet
      { schemaReady := true
        fault := none
        docs := [(uuidString 1, Pet.ofCreate rexInput 1 0 0)] }
      rexInput 1 2 3 =
      .error (.validation
        ("Pet with ID " ++ uuidString 1 ++ " already exists")) ∧
    create_activity clashActivityStore walkInput 0 4 5 =
      .error (.cosmos conflictErr) := by
  constructor
  · exact c8_create_conflict.1
      { schemaReady := true
        fault := none
        docs := [(uuidString 1, Pet.ofCreate rexInput 1 0 0)] }
      rexInput 1 2 3 (by decide) (by decide) (by decide)
  · exact c8_create_conflict.2 clashActivityStore walkInput 0 4 5
      (by decide) (by decide) (by decide)

/-!
C9.
-/

/-- One seeding-loop iteration on a healthy store never raises: a fresh
identity inserts the sample, a pre-existing identity leads to the
swallowed conflict and leaves the store untouched; either way all stored
entries survive and the identity in question is present afterwards. -/
theorem seedOne_spec (st : DbState Pet) (id : String) (doc : Pet)
    (hs : st.schemaReady = true) (hf : st.fault = none) :
    ∃ st', seedOne st (id, doc) = .ok st' ∧ st'.schemaReady = true ∧
      st'.fault = none ∧
      (∀ k v, st.docs.lookup k = some v → st'.docs.lookup k = some v) ∧
      (st'.docs.lookup id).isSome := by
  rcases hb : st.docs.lookup id with _ | v
  · refine ⟨{ st with docs := (id, doc) :: st.docs },
      by simp [seedOne, createItem, hs, hf, hb], hs, hf, ?_, ?_⟩
    · intro k v hk
      by_cases hkid : k = id
      · rw [hkid] at hk
        rw [hk] at hb
        exact absurd hb (by simp)
      · have hkb : (k == id) = false := by
          simp [hkid]
        simp only [List.lookup, hkb]
        exact hk
    · simp [List.lookup]
  · exact ⟨st, by simp [seedOne, createItem, hs, hf, hb, conflictErr],
      hs, hf, fun k v hk => hk, by simp [hb]⟩

/-- C9: seeding is idempotent on a healthy store — for every prior store
contents, the seeding pass returns normally (each creation conflict on a
pre-existing sample identity is swallowed by the loop, never raised to
the caller), every record stored beforehand survives unchanged, and
afterwards all three sample identities are present; in particular
seeding succeeds over any pre-existing subset of the sample
identities. -/
theorem c9_seed_idempotent (st : DbState Pet) (clk : Nat → Nat)
    (hs : st.schemaReady = true) (hf : st.fault = none) :
    ∃ st', database_seed st clk = .ok st' ∧
      st'.schemaReady = true ∧ st'.fault = none ∧
      (∀ k v, st.docs.lookup k = some v → st'.docs.lookup k = some v) ∧
      (st'.docs.lookup "p1").isSome ∧
      (st'.docs.lookup "p2").isSome ∧
      (st'.docs.lookup "p3").isSome := by
  obtain ⟨s1, e1, hs1, hf1, pres1, has1⟩ :=
    seedOne_spec st "p1" (samplePet1 clk) hs hf
  obtain ⟨s2, e2, hs2, hf2, pres2, has2⟩ :=
    seedOne_spec s1 "p2" (samplePet2 clk) hs1 hf1
  obtain ⟨s3, e3, hs3, hf3, pres3, has3⟩ :=
    seedOne_spec s2 "p3" (samplePet3 clk) hs2 hf2
  refine ⟨s3, ?_, hs3, hf3, fun k v hk => pres3 k v (pres2 k v (pres1 k v hk)),
    ?_, ?_, has3⟩
  · have hstep : database_seed st clk =
        Except.bind (seedOne st ("p1", samplePet1 clk)) (fun u1 =>
          Except.bind (seedOne u1 ("p2", samplePet2 clk)) (fun u2 =>
            Except.bind (seedOne u2 ("p3", samplePet3 clk))
              (fun u3 => Except.ok u3))) := rfl
    rw [hstep, e1]
    simp only [Except.bind]
    rw [e2]
    simp only [Except.bind]
    rw [e3]
  · rcases hx : s1.docs.lookup "p1" with _ | v
    · rw [hx] at has1
      simp at has1
    · have := pres3 "p1" v (pres2 "p1" v hx)
      simp [this]
  · rcases hx : s2.docs.lookup "p2" with _ | v
    · rw [hx] at has2
      simp at has2
    · have := pres3 "p2" v hx
      simp [this]

/-- Witness for C9 at a concrete store already holding sample identity
`p1` (a pre-existing subset of the sample identities). -/
theorem c9_witness :
    ∃ st', database_seed
        { schemaReady := true
          fault := none
          docs := [("p1", lunaAtSeven)] } (fun i => i) = .ok st' ∧
      st'.schemaReady = true ∧ st'.fault = none ∧
      (∀ k v,
        (List.lookup k [("p1", lunaAtSeven)] : Option Pet) = some v →
          st'.docs.lookup k = some v) ∧
      (st'.docs.lookup "p1").isSome ∧
      (st'.docs.lookup "p2").isSome ∧
      (st'.docs.lookup "p3").isSome :=
  c9_seed_idempotent
    { schemaReady := true
      fault := none
      docs := [("p1", lunaAtSeven)] } (fun i => i) (by decide) (by decide)


/-!
Query builder lemmas shared by the search claims.
-/

theorem optTextClause_eq (o : Option String) (mk : String → β) :
    optTextClause o mk = if optStrTruthy o then [mk (o.getD "")] else [] := by
  rcases o with _ | s
  · rfl
  · rcases h : s.isEmpty <;> simp [optTextClause, optStrTruthy, h]

theorem petConditions_texts (f : PetSearchFilters) :
    (petConditions f).map PetCond.text =
      (if optStrTruthy f.search
       then ["(CONTAINS(c.name, @search) OR CONTAINS(c.notes, @search))"]
       else []) ++
      (if optStrTruthy f.species then ["c.species = @species"] else []) := by
  rw [petConditions, optTextClause_eq, optTextClause_eq]
  rcases hs : optStrTruthy f.search <;>
    rcases hsp : optStrTruthy f.species <;> simp [PetCond.text]

theorem petConditions_length (f : PetSearchFilters) :
    (petConditions f).length = petPresentCount f := by
  have h := congrArg List.length (petConditions_texts f)
  rw [List.length_map] at h
  rw [h, petPresentCount]
  rcases hs : optStrTruthy f.search <;>
    rcases hsp : optStrTruthy f.species <;> simp

theorem eval_petConditions (f : PetSearchFilters) (p : Pet) :
    evalPetConds (petConditions f) p = petFilterMatches f p := by
  rw [evalPetConds, petConditions, optTextClause_eq, optTextClause_eq,
    petFilterMatches]
  rcases hs : optStrTruthy f.search <;>
    rcases hsp : optStrTruthy f.species <;>
    simp [PetCond.eval, textFieldsMatch]

theorem accConditions_texts (f : AccessorySearchFilters) :
    (accConditions f).map AccCond.text =
      (if optStrTruthy f.search
       then
        ["(CONTAINS(c.name, @search) OR CONTAINS(c.description, @search))"]
       else []) ++
      (if optStrTruthy f.type then ["c.type = @type"] else []) ++
      (if optBoolTruthy f.lowStockOnly then ["c.stock < 10"] else []) := by
  rw [accConditions, optTextClause_eq, optTextClause_eq]
  rcases hs : optStrTruthy f.search <;>
    rcases hty : optStrTruthy f.type <;>
    rcases hlow : optBoolTruthy f.lowStockOnly <;> simp [AccCond.text]

theorem accConditions_length (f : AccessorySearchFilters) :
    (accConditions f).length = accPresentCount f := by
  have h := congrArg List.length (accConditions_texts f)
  rw [List.length_map] at h
  rw [h, accPresentCount]
  rcases hs : optStrTruthy f.search <;>
    rcases hty : optStrTruthy f.type <;>
    rcases hlow : optBoolTruthy f.lowStockOnly <;> simp

theorem eval_accConditions (f : AccessorySearchFilters) (a : Accessory) :
    evalAccConds (accConditions f) a = accFilterMatches f a := by
  rw [evalAccConds, accConditions, optTextClause_eq, optTextClause_eq,
    accFilterMatches]
  rcases hs : optStrTruthy f.search <;>
    rcases hty : optStrTruthy f.type <;>
    rcases hlow : optBoolTruthy f.lowStockOnly <;>
    simp [AccCond.eval, textFieldsMatch, Bool.and_assoc]

/-!
C6.
-/

/-- C6: the query builders of both cited services emit exactly one
clause per present (truthy) filter and no clause at all for each absent
filter — the condition-list length equals the number of present filters,
so an absent filter contributes nothing, not even an always-true
clause — the emitted clauses are combined conjunctively, and therefore
the store-side evaluation of the built condition list coincides with the
conjunction of all supplied filters; consequently every record returned
by a search satisfies that conjunction. -/
theorem c6_conjunctive_filters :
    (∀ f : PetSearchFilters, (petConditions f).length = petPresentCount f) ∧
    (∀ (f : PetSearchFilters) (p : Pet),
      evalPetConds (petConditions f) p = petFilterMatches f p) ∧
    (∀ f : AccessorySearchFilters,
      (accConditions f).length = accPresentCount f) ∧
    (∀ (f : AccessorySearchFilters) (a : Accessory),
      evalAccConds (accConditions f) a = accFilterMatches f a) ∧
    (∀ (st : DbState Accessory) (f : AccessorySearchFilters)
        (res : List Accessory) (a : Accessory),
      st.schemaReady = true → st.fault = none →
      search_accessories st f = .ok res → a ∈ res →
      accFilterMatches f a = true) := by
  refine ⟨petConditions_length, eval_petConditions, accConditions_length,
    eval_accConditions, ?_⟩
  intro st f res a hs hf hok hmem
  rw [search_accessories, runAccQuery, hf] at hok
  simp only [hs, if_true] at hok
  have hres := Except.ok.inj hok
  rw [← hres] at hmem
  have h1 : a ∈ (((st.docs.map Prod.snd).filter
      (evalAccConds (accConditions f))).mergeSort
      (fun a b => decide (b.createdAt ≤ a.createdAt))).drop f.offset :=
    List.take_subset _ _ hmem
  have h2 : a ∈ ((st.docs.map Prod.snd).filter
      (evalAccConds (accConditions f))).mergeSort
      (fun a b => decide (b.createdAt ≤ a.createdAt)) :=
    List.drop_subset _ _ h1
  have h3 : a ∈ (st.docs.map Prod.snd).filter
      (evalAccConds (accConditions f)) :=
    List.mem_mergeSort.mp h2
  have h4 := (List.mem_filter.mp h3).2
  rwa [eval_accConditions] at h4

/-- Witness for C6 at a concrete store and filter. -/
theorem c6_witness :
    accFilterMatches
      { search := none, type := some "toy", lowStockOnly := none } chewToy =
      true := by
  refine c6_conjunctive_filters.2.2.2.2 oneChewToyStore
    { search := none, type := some "toy", lowStockOnly := none }
    [chewToy] chewToy (by decide) (by decide) ?_ (by decide)
  show runAccQuery oneChewToyStore _ = _
  rw [runAccQuery]
  simp only [oneChewToyStore]
  rw [show ((List.filter
      (evalAccConds (accConditions
        { search := none, type := some "toy", lowStockOnly := none }))
      (List.map Prod.snd [("x1", chewToy)]))) = [chewToy] from by decide,
    List.mergeSort_singleton]
  rfl

/-!
C7.
-/

theorem isEmpty_map (l : List α) (f : α → β) :
    (l.map f).isEmpty = l.isEmpty := by
  rcases l with _ | ⟨a, l⟩ <;> rfl

/-- C7 counterexample: the claim asserts that the generated query text
is identical for any two filter objects with the same set of present
fields regardless of the field values; but the builders interpolate the
`limit` and `offset` field values into the text through the f-string
`OFFSET ... LIMIT ...` (pet database.py lines 476-477), so two filter
objects with no optional filter present that differ only in the always
present `limit` field produce different query texts — those two field
values are string-interpolated, not bound. -/
theorem c7_counterexample :
    optStrTruthy (PetSearchFilters.search {}) =
      optStrTruthy (PetSearchFilters.search { limit := 50 }) ∧
    optStrTruthy (PetSearchFilters.species {}) =
      optStrTruthy (PetSearchFilters.species { limit := 50 }) ∧
    petQueryText {} ≠ petQueryText { limit := 50 } := by
  refine ⟨rfl, rfl, ?_⟩
  decide

/-- C7 (amended): the content-filter values (free-text term, species or
type) are passed only through the bound parameter list — the parameter
list carries exactly the supplied field values — and never reach the
query text, which therefore is identical for any two filter objects with
the same set of present filters and the same `limit` and `offset`; the
`limit` and `offset` values themselves are interpolated into the text
(they are validated integers, not bound parameters). -/
theorem c7_bound_parameter_values :
    (∀ f g : PetSearchFilters,
      optStrTruthy f.search = optStrTruthy g.search →
      optStrTruthy f.species = optStrTruthy g.species →
      f.limit = g.limit → f.offset = g.offset →
      petQueryText f = petQueryText g) ∧
    (∀ f : PetSearchFilters,
      petQueryParams f =
        (if optStrTruthy f.search
         then [("@search", f.search.getD "")] else []) ++
        (if optStrTruthy f.species
         then [("@species", f.species.getD "")] else [])) ∧
    (∀ f g : AccessorySearchFilters,
      optStrTruthy f.search = optStrTruthy g.search →
      optStrTruthy f.type = optStrTruthy g.type →
      optBoolTruthy f.lowStockOnly = optBoolTruthy g.lowStockOnly →
      f.limit = g.limit → f.offset = g.offset →
      accQueryText f = accQueryText g) ∧
    (∀ f : AccessorySearchFilters,
      accQueryParams f =
        (if optStrTruthy f.search
         then [("@search", f.search.getD "")] else []) ++
        (if optStrTruthy f.type
         then [("@type", f.type.getD "")] else [])) := by
  refine ⟨?_, ?_, ?_, ?_⟩
  · intro f g h1 h2 h3 h4
    have htf := petConditions_texts f
    rw [h1, h2] at htf
    have htexts : (petConditions f).map PetCond.text =
        (petConditions g).map PetCond.text :=
      htf.trans (petConditions_texts g).symm
    have hempty : (petConditions f).isEmpty = (petConditions g).isEmpty := by
      have h := congrArg List.isEmpty htexts
      rwa [isEmpty_map, isEmpty_map] at h
    simp only [petQueryText]
    rw [hempty, htexts, h3, h4]
  · intro f
    rw [petQueryParams, petConditions, optTextClause_eq, optTextClause_eq]
    rcases hs : optStrTruthy f.search <;>
      rcases hsp : optStrTruthy f.species <;> simp [PetCond.param]
  · intro f g h1 h2 h3 h4 h5
    have htf := accConditions_texts f
    rw [h1, h2, h3] at htf
    have htexts : (accConditions f).map AccCond.text =
        (accConditions g).map AccCond.text :=
      htf.trans (accConditions_texts g).symm
    have hempty : (accConditions f).isEmpty = (accConditions g).isEmpty := by
      have h := congrArg List.isEmpty htexts
      rwa [isEmpty_map, isEmpty_map] at h
    simp only [accQueryText]
    rw [hempty, htexts, h4, h5]
  · intro f
    rw [accQueryParams, accConditions, optTextClause_eq, optTextClause_eq]
    rcases hs : optStrTruthy f.search <;>
      rcases hty : optStrTruthy f.type <;>
      rcases hlow : optBoolTruthy f.lowStockOnly <;>
      simp [AccCond.params]

/-- Witness for C7 (amended): two pet filters with the same present
filters and the same limit and offset but different search terms give
the same query text. -/
theorem c7_witness :
    petQueryText { search := some "Luna" } =
      petQueryText { search := some "Milo" } :=
  c7_bound_parameter_values.1 { search := some "Luna" }
    { search := some "Milo" } (by decide) (by decide) (by decide) (by decide)

/-!
C3.
-/

/-- Seeding a schema-ready, fault-free store always returns normally
with the store still schema-ready and fault-free. -/
theorem database_seed_healthy (st : DbState Pet) (clk : Nat → Nat)
    (hs : st.schemaReady = true) (hf : st.fault = none) :
    ∃ st', database_seed st clk = .ok st' ∧ st'.schemaReady = true ∧
      st'.fault = none := by
  obtain ⟨s1, e1, hs1, hf1, _, _⟩ :=
    seedOne_spec st "p1" (samplePet1 clk) hs hf
  obtain ⟨s2, e2, hs2, hf2, _, _⟩ :=
    seedOne_spec s1 "p2" (samplePet2 clk) hs1 hf1
  obtain ⟨s3, e3, hs3, hf3, _, _⟩ :=
    seedOne_spec s2 "p3" (samplePet3 clk) hs2 hf2
  refine ⟨s3, ?_, hs3, hf3⟩
  have hstep : database_seed st clk =
      Except.bind (seedOne st ("p1", samplePet1 clk)) (fun u1 =>
        Except.bind (seedOne u1 ("p2", samplePet2 clk)) (fun u2 =>
          Except.bind (seedOne u2 ("p3", samplePet3 clk))
            (fun u3 => Except.ok u3))) := rfl
  rw [hstep, e1]
  simp only [Except.bind]
  rw [e2]
  simp only [Except.bind]
  rw [e3]

/-- C3 counterexample: the claim asserts that every search invocation
turns a not-found class store error into provisioning plus one retry,
but the backend accessory-service search (database.py lines 367-372 of
that service) re-raises every store error: on a store whose database or
container is missing, the search propagates the not-found class error to
the caller unchanged instead of provisioning and retrying. -/
theorem c3_counterexample :
    search_accessories noSchemaAccStore {} = .error schemaMissingErr ∧
    isNotFoundClass schemaMissingErr = true :=
  ⟨rfl, by decide⟩

/-- C3 (amended): the pet-service search turns a store error classified
as not-found (by the shared classifier over message and status code)
into the provisioning flow followed by exactly one retry of the same
search — on a fault-free store with missing schema, the outcome is
exactly provisioning followed by a single plain query against the
provisioned store, for every remaining fuel — and propagates every error
outside that class unchanged; the backend accessory-service search
instead propagates every store error unchanged, the not-found class
included, and never provisions or retries. -/
theorem c3_search_error_policy :
    (∀ (st : DbState Pet) (f : PetSearchFilters) (clk : Nat → Nat)
        (fuel : Nat),
      st.schemaReady = false → st.fault = none →
      ∃ st' res, create_database_and_seed st clk = .ok st' ∧
        runPetQuery st' f = .ok res ∧
        search_pets (fuel + 1) clk st f = .ok (res, st')) ∧
    (∀ (st : DbState Pet) (f : PetSearchFilters) (clk : Nat → Nat)
        (fuel : Nat) (e : CosmosErr),
      st.fault = some e → isNotFoundClass e = false →
      search_pets fuel clk st f = .error e) ∧
    (∀ (st : DbState Accessory) (f : AccessorySearchFilters)
        (e : CosmosErr),
      runAccQuery st f = .error e →
      search_accessories st f = .error e) := by
  refine ⟨?_, ?_, ?_⟩
  · intro st f clk fuel hs hf
    obtain ⟨st', hseed, hs', hf'⟩ :=
      database_seed_healthy { st with schemaReady := true } clk rfl hf
    rw [hf] at hseed
    have hcds : create_database_and_seed st clk = .ok st' := by
      rw [create_database_and_seed, hf]
      exact hseed
    have hq0 : runPetQuery st f = .error schemaMissingErr := by
      rw [runPetQuery, hf]
      simp [hs]
    have hq : runPetQuery st' f =
        .ok ((((st'.docs.map Prod.snd).filter
          (evalPetConds (petConditions f))).mergeSort
          (fun a b => decide (b.createdAt ≤ a.createdAt))).drop
          f.offset |>.take f.limit) := by
      rw [runPetQuery, hf']
      simp [hs']
    have hclass : isNotFoundClass schemaMissingErr = true := by decide
    refine ⟨st', _, hcds, hq, ?_⟩
    rw [search_pets, hq0]
    simp only [hclass, if_true]
    show (match create_database_and_seed st clk with
      | Except.error e2 => Except.error e2
      | Except.ok st2 => search_pets fuel clk st2 f) = _
    rw [hcds]
    show search_pets fuel clk st' f = _
    rw [search_pets, hq]
  · intro st f clk fuel e hfault hclass
    have hq : runPetQuery st f = .error e := by
      rw [runPetQuery, hfault]
    rw [search_pets, hq]
    simp [hclass]
  · intro st f e hq
    rw [search_accessories, hq]

/-- Witness for C3 (amended) at a concrete fault-free store with missing
schema: provisioning happens once and the single retry succeeds. -/
theorem c3_witness :
    ∃ st' res, create_database_and_seed
        { schemaReady := false, fault := none, docs := [] }
        (fun i => i) = .ok st' ∧
      runPetQuery st' {} = .ok res ∧
      search_pets 1 (fun i => i)
        { schemaReady := false, fault := none, docs := [] } {} =
        .ok (res, st') :=
  c3_search_error_policy.1
    { schemaReady := false, fault := none, docs := [] } {} (fun i => i) 0
    rfl rfl
